import Mathlib

/-!
Shallow embedding of `pkg/connection/connection.go` from the
external-snapshotter repository: the CSI connection façade (driver name,
capability negotiation, snapshot create/status), the timestamp
normalizer `timestampToUnixTime` (including the semantics of the external
`ptypes.Timestamp` decoder it delegates to), the `connect` readiness loop,
and the `logGRPC` interceptor.

Remote calls are modelled by an oracle environment (`RemoteEnv`) holding the
outcome of each gRPC method for this call, and each façade operation returns,
alongside its Go result tuple, the list of remote calls it issued.  A Go
function that returns `(values..., err)` is modelled as `GoResult`, carrying
the full returned tuple together with the error value exactly as the `return`
statements in the source write them; a nil-pointer dereference is the
distinct outcome `GoResult.panics`.
-/

set_option autoImplicit false

namespace CsiConnection

/-- The error values the connection layer can produce: an error propagated
from a remote call, the local precondition and protocol-shape errors from
`connection.go` (`CSIPersistentVolumeSource not defined in spec`,
`name is empty`, `can not find snapshot for snapshotID %s`), and the
validation errors of the external `ptypes.Timestamp` decoder. -/
inductive Err where
  | remote (msg : String)
  | csiSourceNotDefined
  | nameEmpty
  | snapshotNotFound (snapshotID : String)
  | timestampNil
  | timestampBeforeMin
  | timestampAfterMax
  | nanosOutOfRange
  deriving DecidableEq, Repr

/-- Wire timestamp (`timestamp.Timestamp`): seconds since the Unix epoch and
a nanosecond remainder.  The wire fields are int64 and int32; they are
modelled as unbounded integers, which is safe because every consumer below
either validates them into a narrower range or is only observed on validated
values. -/
structure Timestamp where
  seconds : Int
  nanos : Int
  deriving DecidableEq, Repr

/-- `minValidSeconds` of ptypes: Unix seconds of 0001-01-01T00:00:00Z. -/
def minValidSeconds : Int := -62135596800

/-- `maxValidSeconds` of ptypes: Unix seconds of 10000-01-01T00:00:00Z. -/
def maxValidSeconds : Int := 253402300800

/-- `validateTimestamp` from the external ptypes library: a nil pointer, a
seconds field outside `[minValidSeconds, maxValidSeconds)`, or a nanos field
outside `[0, 1e9)` is rejected. -/
def validateTimestamp : Option Timestamp → Option Err
  | none => some Err.timestampNil
  | some ts =>
    if ts.seconds < minValidSeconds then some Err.timestampBeforeMin
    else if maxValidSeconds ≤ ts.seconds then some Err.timestampAfterMax
    else if ts.nanos < 0 ∨ 1000000000 ≤ ts.nanos then some Err.nanosOutOfRange
    else none

/-- A Go `time.Time` as far as this code observes it: integer seconds and a
nanosecond part in `[0, 1e9)` after `time.Unix` normalization. -/
structure GoTime where
  sec : Int
  nsec : Int
  deriving DecidableEq, Repr

/-- Go `time.Unix(sec, nsec)`: brings `nsec` into `[0, 1e9)`, carrying into
`sec`.  `Int.tdiv` is Go integer division (truncation toward zero).  The
int64 wraparound of `sec + n` is not modelled: `nsec` originates from an
int32 wire field here, so the carry has magnitude at most 3. -/
def timeUnix (s ns : Int) : GoTime :=
  if ns < 0 ∨ 1000000000 ≤ ns then
    let n := Int.tdiv ns 1000000000
    let s := s + n
    let ns := ns - n * 1000000000
    if ns < 0 then ⟨s - 1, ns + 1000000000⟩ else ⟨s, ns⟩
  else ⟨s, ns⟩

/-- Two to the 63rd, the int64 sign boundary. -/
def twoPow63 : Int := 9223372036854775808

/-- Reduce an integer into int64 range `[-2^63, 2^63)` the way the wrapping
int64 arithmetic of Go does. -/
def wrap64 (x : Int) : Int := (x + twoPow63) % (2 * twoPow63) - twoPow63

/-- Go `time.Time.UnixNano()`: `sec*1e9 + nsec` in wrapping int64
arithmetic (the Go documentation leaves the out-of-range case undefined; the
implementation wraps). -/
def unixNano (t : GoTime) : Int := wrap64 (t.sec * 1000000000 + t.nsec)

/-- `ptypes.Timestamp` from the external golang/protobuf library: builds the
time via `time.Unix` (using zero for a nil pointer) and returns it together
with the result of `validateTimestamp`. -/
def ptypesTimestamp : Option Timestamp → GoTime × Option Err
  | none => (timeUnix 0 0, validateTimestamp none)
  | some ts => (timeUnix ts.seconds ts.nanos, validateTimestamp (some ts))

/-- `timestampToUnixTime` from connection.go: decode via `ptypes.Timestamp`;
on a decode error return `(-1, err)`, otherwise the `UnixNano()` of the
decoded time. -/
def timestampToUnixTime (t : Option Timestamp) : Int × Option Err :=
  let r := ptypesTimestamp t
  match r.2 with
  | some e => (-1, some e)
  | none => (unixNano r.1, none)

/-- Modelled from the spec: the encoder from an absolute-nanosecond value to
the wire timestamp form is not part of this repository (the round-trip
property of the spec in §4.2/§8 presumes it).  Per the wire contract it is
the canonical split: seconds is the floor division by 1e9 and nanos the
nonnegative remainder (in Lean, `/` and `%` on `Int` are Euclidean, which for
the positive divisor 1e9 is exactly that). -/
def encodeNanos (n : Int) : Timestamp :=
  ⟨n / 1000000000, n % 1000000000⟩

/-- A wire timestamp is malformed when ptypes validation rejects it: seconds
outside the representable range or a nanosecond remainder outside
`[0, 1e9)`. -/
def malformedTimestamp (ts : Timestamp) : Prop :=
  ts.seconds < minValidSeconds ∨ maxValidSeconds ≤ ts.seconds ∨
    ts.nanos < 0 ∨ 1000000000 ≤ ts.nanos

/-- Capability type of the CSI `ControllerServiceCapability_RPC` enum; only
the two values scanned for in connection.go are distinguished, the rest are
`other`. -/
inductive CapabilityType where
  | createDeleteSnapshot
  | listSnapshots
  | other (n : Nat)
  deriving DecidableEq, Repr

/-- The `Rpc` sub-field of a controller capability entry. -/
structure CapabilityRpc where
  type : CapabilityType
  deriving DecidableEq, Repr

/-- A controller capability entry; `GetRpc()` yields nil when the oneof of
the entry is not an rpc capability, modelled as `none`. -/
structure Capability where
  rpc : Option CapabilityRpc
  deriving DecidableEq, Repr

/-- `GetPluginInfoResponse` as observed by connection.go: only the name. -/
structure GetPluginInfoResponse where
  name : String
  deriving DecidableEq, Repr

/-- `ControllerGetCapabilitiesResponse`: the capability list, whose entries
are pointers and so may be nil. -/
structure ControllerGetCapabilitiesResponse where
  capabilities : List (Option Capability)
  deriving DecidableEq, Repr

/-- The `csi.Snapshot` message as observed by connection.go. -/
structure Snapshot where
  snapshotId : String
  sizeBytes : Int
  creationTime : Option Timestamp
  readyToUse : Bool
  deriving DecidableEq, Repr

/-- `CreateSnapshotResponse`: the snapshot descriptor pointer, possibly
nil. -/
structure CreateSnapshotResponse where
  snapshot : Option Snapshot
  deriving DecidableEq, Repr

/-- An entry of `ListSnapshotsResponse`; the entry pointer and its snapshot
pointer may each be nil. -/
structure ListSnapshotsEntry where
  snapshot : Option Snapshot
  deriving DecidableEq, Repr

/-- `ListSnapshotsResponse`: the entry list (a nil slice and an empty slice
are indistinguishable to the `len`-based check in the source, so both are
`[]`). -/
structure ListSnapshotsResponse where
  entries : List (Option ListSnapshotsEntry)
  deriving DecidableEq, Repr

/-- Oracle for the remote side of one façade call: for each gRPC method,
either the transport/remote error or the response message the driver
returns. -/
structure RemoteEnv where
  getPluginInfo : Except String GetPluginInfoResponse
  controllerGetCapabilities : Except String ControllerGetCapabilitiesResponse
  createSnapshotRPC : Except String CreateSnapshotResponse
  listSnapshotsRPC : Except String ListSnapshotsResponse
  deriving Repr

/-- One remote call issued by the façade, tagged with the request fields the
claims talk about. -/
inductive RemoteCall where
  | getPluginInfo
  | controllerGetCapabilities
  | createSnapshotCall (sourceVolumeId : String) (name : String)
  | listSnapshotsCall (snapshotId : String)
  deriving DecidableEq, Repr

/-- Outcome of a Go function returning `(values..., err)`: `ret` carries the
whole returned tuple together with the error value, exactly as the `return`
statements write them; `panics` is a nil-pointer dereference, which returns
nothing at all. -/
inductive GoResult (α : Type) where
  | ret : α → Option Err → GoResult α
  | panics : GoResult α
  deriving DecidableEq, Repr

/-- `CSIPersistentVolumeSource` as observed by `CreateSnapshot`: only the
volume handle is read. -/
structure CSIPersistentVolumeSource where
  volumeHandle : String
  deriving DecidableEq, Repr

/-- `v1.PersistentVolumeSpec` as observed here: the CSI source pointer. -/
structure PersistentVolumeSpec where
  csi : Option CSIPersistentVolumeSource
  deriving DecidableEq, Repr

/-- `v1.PersistentVolume` as observed here. -/
structure PersistentVolume where
  spec : PersistentVolumeSpec
  deriving DecidableEq, Repr

/-- `GetDriverName`: one `GetPluginInfo` call; a remote error propagates, an
empty name is rejected with `name is empty`, otherwise the name is
returned. -/
def GetDriverName (env : RemoteEnv) : (String × Option Err) × List RemoteCall :=
  match env.getPluginInfo with
  | Except.error e => (("", some (Err.remote e)), [RemoteCall.getPluginInfo])
  | Except.ok rsp =>
    if rsp.name = "" then (("", some Err.nameEmpty), [RemoteCall.getPluginInfo])
    else ((rsp.name, none), [RemoteCall.getPluginInfo])

/-- The capability scan loop shared by both Supports functions: skip nil
entries and entries whose rpc sub-field is nil, return true on the first
entry whose type matches, false when the list is exhausted. -/
def scanCapabilities (want : CapabilityType) : List (Option Capability) → Bool
  | [] => false
  | c :: rest =>
    match c with
    | none => scanCapabilities want rest
    | some cap =>
      match cap.rpc with
      | none => scanCapabilities want rest
      | some rpc => if rpc.type = want then true else scanCapabilities want rest

/-- `SupportsControllerCreateSnapshot`: one `ControllerGetCapabilities`
call; a remote error propagates as `(false, err)`, otherwise the list is
scanned for `CREATE_DELETE_SNAPSHOT`. -/
def SupportsControllerCreateSnapshot (env : RemoteEnv) :
    (Bool × Option Err) × List RemoteCall :=
  match env.controllerGetCapabilities with
  | Except.error e =>
    ((false, some (Err.remote e)), [RemoteCall.controllerGetCapabilities])
  | Except.ok rsp =>
    ((scanCapabilities CapabilityType.createDeleteSnapshot rsp.capabilities, none),
      [RemoteCall.controllerGetCapabilities])

/-- `SupportsControllerListSnapshots`: same shape, scanning for
`LIST_SNAPSHOTS`. -/
def SupportsControllerListSnapshots (env : RemoteEnv) :
    (Bool × Option Err) × List RemoteCall :=
  match env.controllerGetCapabilities with
  | Except.error e =>
    ((false, some (Err.remote e)), [RemoteCall.controllerGetCapabilities])
  | Except.ok rsp =>
    ((scanCapabilities CapabilityType.listSnapshots rsp.capabilities, none),
      [RemoteCall.controllerGetCapabilities])

/-- `CreateSnapshot`: precondition check on the CSI source pointer, then
`GetDriverName` (one remote call), then the `CreateSnapshot` RPC whose
request carries the volume handle and snapshot name; the response descriptor
is dereferenced without a nil check (a nil `rsp.Snapshot` panics at the log
statement), and its creation time is normalized.  Every error return zeroes
the value tuple. -/
def CreateSnapshot (env : RemoteEnv) (snapshotName : String)
    (volume : PersistentVolume) (parameters : List (String × String))
    (snapshotterCredentials : List (String × String)) :
    GoResult (String × String × Int × Int × Bool) × List RemoteCall :=
  match volume.spec.csi with
  | none => (GoResult.ret ("", "", 0, 0, false) (some Err.csiSourceNotDefined), [])
  | some csi =>
    match GetDriverName env with
    | ((_, some e), calls) => (GoResult.ret ("", "", 0, 0, false) (some e), calls)
    | ((driverName, none), calls) =>
      match env.createSnapshotRPC with
      | Except.error e =>
        (GoResult.ret ("", "", 0, 0, false) (some (Err.remote e)),
          calls ++ [RemoteCall.createSnapshotCall csi.volumeHandle snapshotName])
      | Except.ok rsp =>
        match rsp.snapshot with
        | none =>
          (GoResult.panics,
            calls ++ [RemoteCall.createSnapshotCall csi.volumeHandle snapshotName])
        | some snap =>
          match timestampToUnixTime snap.creationTime with
          | (_, some e) =>
            (GoResult.ret ("", "", 0, 0, false) (some e),
              calls ++ [RemoteCall.createSnapshotCall csi.volumeHandle snapshotName])
          | (creationTime, none) =>
            (GoResult.ret
                (driverName, snap.snapshotId, creationTime, snap.sizeBytes,
                  snap.readyToUse) none,
              calls ++ [RemoteCall.createSnapshotCall csi.volumeHandle snapshotName])

/-- `GetSnapshotStatus`: one `ListSnapshots` call keyed by the snapshot id;
a remote error propagates, an empty entry list is the local error
`can not find snapshot for snapshotID`, otherwise only `Entries[0]` is
dereferenced (a nil entry or nil snapshot pointer panics) and its creation
time is normalized. -/
def GetSnapshotStatus (env : RemoteEnv) (snapshotID : String) :
    GoResult (Bool × Int × Int) × List RemoteCall :=
  match env.listSnapshotsRPC with
  | Except.error e =>
    (GoResult.ret (false, 0, 0) (some (Err.remote e)),
      [RemoteCall.listSnapshotsCall snapshotID])
  | Except.ok rsp =>
    match rsp.entries with
    | [] =>
      (GoResult.ret (false, 0, 0) (some (Err.snapshotNotFound snapshotID)),
        [RemoteCall.listSnapshotsCall snapshotID])
    | entry0 :: _ =>
      match entry0 with
      | none => (GoResult.panics, [RemoteCall.listSnapshotsCall snapshotID])
      | some entry =>
        match entry.snapshot with
        | none => (GoResult.panics, [RemoteCall.listSnapshotsCall snapshotID])
        | some snap =>
          match timestampToUnixTime snap.creationTime with
          | (_, some e) =>
            (GoResult.ret (false, 0, 0) (some e),
              [RemoteCall.listSnapshotsCall snapshotID])
          | (t, none) =>
            (GoResult.ret (snap.readyToUse, t, snap.sizeBytes) none,
              [RemoteCall.listSnapshotsCall snapshotID])

/-- The four dial options `connect` can assemble: the three unconditional
ones and, for addresses starting with `/`, the unix-socket dialer. -/
inductive DialOption where
  | withInsecure
  | withBackoffMaxDelay
  | withUnaryInterceptorLogGRPC
  | withUnixDialer
  deriving DecidableEq, Repr

/-- Go `strings.HasPrefix(address, "/")`: the address begins with the path
separator, i.e. denotes a local filesystem path.  Stated on the character
list so the kernel can compute it. -/
def hasPathMarker (address : String) : Bool :=
  match address.data with
  | [] => false
  | c :: _ => c = '/'

/-- The dial option list built at the top of `connect`: the base options,
plus the unix-socket dialer exactly when the address has the `/` path
marker. -/
def dialOptions (address : String) : List DialOption :=
  let base := [DialOption.withInsecure, DialOption.withBackoffMaxDelay,
    DialOption.withUnaryInterceptorLogGRPC]
  if hasPathMarker address then base ++ [DialOption.withUnixDialer] else base

/-- gRPC connectivity states, as in the connectivity package. -/
inductive ConnectivityState where
  | idle
  | connecting
  | ready
  | transientFailure
  | shutdown
  deriving DecidableEq, Repr

/-- What one iteration of the readiness loop of `connect` observes: either
`WaitForStateChange` returned false because the timeout context expired, or
it returned true and `GetState` now reads the given state. -/
inductive WaitEvent where
  | ctxDone
  | stateChanged (s : ConnectivityState)
  deriving DecidableEq, Repr

/-- The readiness loop of `connect`, driven by the sequence of observations:
on a context timeout the channel is returned as-is (`some false`: returned,
not ready, nil error); on reaching `Ready` it is returned at once
(`some true`); any other state change loops.  `none` means the given
observation sequence ran out before the loop returned (the real loop would
keep waiting; the timeout context guarantees a `ctxDone` eventually). -/
def waitLoop : List WaitEvent → Option Bool
  | [] => none
  | WaitEvent.ctxDone :: _ => some false
  | WaitEvent.stateChanged s :: rest =>
    if s = ConnectivityState.ready then some true else waitLoop rest

/-- Outcome of `connect`: either `grpc.Dial` itself failed and the error is
returned with no channel, or the dialed channel is returned (always with a
nil error); `ready` records whether the loop saw the ready state before the
deadline. -/
inductive ConnectOutcome where
  | dialFailed (e : String)
  | channelReturned (ready : Bool)
  deriving DecidableEq, Repr

/-- `connect`: assemble the dial options, dial (outcome supplied by the
`dial` oracle), and on a successful dial run the readiness loop over the
observed state-change sequence. -/
def connect (address : String) (dial : Except String Unit)
    (events : List WaitEvent) : Option ConnectOutcome :=
  let _opts := dialOptions address
  match dial with
  | Except.error e => some (ConnectOutcome.dialFailed e)
  | Except.ok _ => (waitLoop events).map ConnectOutcome.channelReturned

/-- A diagnostic line emitted by `logGRPC`; request and response are logged
after secret-stripping. -/
inductive LogEntry where
  | callLine (method : String)
  | requestLine (sanitized : String)
  | responseLine (sanitized : String)
  | errorLine (err : Option String)
  deriving DecidableEq, Repr

/-- `logGRPC`: log the method and the stripped request, run the invoker
(whose writes to the reply out-parameter are modelled by it returning the
reply), log the stripped reply and the error, and return exactly the
outcome of the invoker. -/
def logGRPC {Req Reply : Type} (stripReq : Req → String)
    (stripReply : Reply → String) (method : String)
    (invoker : Req → Reply × Option String) (req : Req) :
    (Reply × Option String) × List LogEntry :=
  let pre := [LogEntry.callLine method, LogEntry.requestLine (stripReq req)]
  let r := invoker req
  (r, pre ++ [LogEntry.responseLine (stripReply r.1), LogEntry.errorLine r.2])

/-- Sample complete snapshot descriptor for concrete instantiations; its
creation time decodes to 7000000005 absolute nanoseconds. -/
def sampleSnap : Snapshot :=
  ⟨"snap-xyz", 1024, some ⟨7, 5⟩, true⟩

/-- A driver environment in which every remote call succeeds with a complete
response. -/
def envHappy : RemoteEnv where
  getPluginInfo := Except.ok ⟨"csi.example.com"⟩
  controllerGetCapabilities :=
    Except.ok ⟨[some ⟨some ⟨CapabilityType.createDeleteSnapshot⟩⟩]⟩
  createSnapshotRPC := Except.ok ⟨some sampleSnap⟩
  listSnapshotsRPC := Except.ok ⟨[some ⟨some sampleSnap⟩]⟩

/-- Like `envHappy` but the snapshot id in the create response is empty. -/
def envEmptyId : RemoteEnv :=
  { envHappy with createSnapshotRPC := Except.ok ⟨some ⟨"", 0, some ⟨0, 0⟩, false⟩⟩ }

/-- Like `envHappy` but the status lookup returns zero entries. -/
def envNoEntries : RemoteEnv :=
  { envHappy with listSnapshotsRPC := Except.ok ⟨[]⟩ }

/-- Like `envHappy` but with a second (nil) status entry behind the same
first entry. -/
def envTwoEntries : RemoteEnv :=
  { envHappy with listSnapshotsRPC := Except.ok ⟨[some ⟨some sampleSnap⟩, none]⟩ }

/-- A driver environment in which every remote call fails at the
transport. -/
def envAllFail : RemoteEnv where
  getPluginInfo := Except.error "transport is down"
  controllerGetCapabilities := Except.error "transport is down"
  createSnapshotRPC := Except.error "transport is down"
  listSnapshotsRPC := Except.error "transport is down"

end CsiConnection

namespace CsiConnection

/-- `GetDriverName` always issues exactly one remote call, the
`GetPluginInfo` request. -/
theorem GetDriverName_calls (env : RemoteEnv) :
    (GetDriverName env).2 = [RemoteCall.getPluginInfo] := by
  unfold GetDriverName
  cases env.getPluginInfo with
  | error e => rfl
  | ok rsp => by_cases h : rsp.name = "" <;> simp [h]

/-- Claim C3: decoding is exact on every encoded int64 nanosecond value, and
every malformed wire timestamp is rejected with a decode error (the sentinel
`-1` result is accompanied by the error, never a silently wrong time). -/
theorem timestampToUnixTime_roundtrip_malformed :
    (∀ n : Int, -twoPow63 ≤ n → n < twoPow63 →
      timestampToUnixTime (some (encodeNanos n)) = (n, none)) ∧
    (∀ ts : Timestamp, malformedTimestamp ts →
      ∃ e, timestampToUnixTime (some ts) = (-1, some e)) := by
  constructor
  · intro n h1 h2
    have h0 : (0:Int) ≤ n % 1000000000 := Int.emod_nonneg n (by norm_num)
    have h9 : n % 1000000000 < 1000000000 := Int.emod_lt_of_pos n (by norm_num)
    have hdm : 1000000000 * (n / 1000000000) + n % 1000000000 = n :=
      Int.ediv_add_emod n 1000000000
    have hlo : minValidSeconds ≤ n / 1000000000 := by
      unfold minValidSeconds; unfold twoPow63 at h1; omega
    have hhi : n / 1000000000 < maxValidSeconds := by
      unfold maxValidSeconds; unfold twoPow63 at h2; omega
    simp only [timestampToUnixTime, ptypesTimestamp, validateTimestamp, encodeNanos,
      timeUnix, unixNano, wrap64]
    split_ifs with hA hB hC hD <;> try omega
    · rw [Prod.mk.injEq]
      refine ⟨?_, rfl⟩
      dsimp only
      unfold twoPow63 at *
      omega
  · intro ts h
    unfold malformedTimestamp at h
    simp only [timestampToUnixTime, ptypesTimestamp, validateTimestamp]
    split_ifs with hA hB hC <;> first
      | exact ⟨_, rfl⟩
      | omega

/-- Witness for C3 at concrete inputs: a positive and the round-tripped
value, and a timestamp whose nanosecond remainder is out of range. -/
theorem timestampToUnixTime_roundtrip_malformed_witness :
    timestampToUnixTime (some (encodeNanos 5000000007)) = (5000000007, none) ∧
    ∃ e, timestampToUnixTime (some ⟨0, 1000000000⟩) = (-1, some e) :=
  ⟨timestampToUnixTime_roundtrip_malformed.1 5000000007 (by decide) (by decide),
    timestampToUnixTime_roundtrip_malformed.2 ⟨0, 1000000000⟩
      (Or.inr (Or.inr (Or.inr (by norm_num))))⟩

/-- Counterexample to C1 as stated: a volume whose CSI source is present but
whose volume handle is empty lacks a non-empty volume handle, yet the call
does not fail with a precondition error — both remote calls are issued (the
create request carrying the empty handle) and the call succeeds. -/
theorem createSnapshot_emptyHandle_counterexample :
    (CreateSnapshot envHappy "snap-1" ⟨⟨some ⟨""⟩⟩⟩ [] []).2 ≠ [] ∧
    (CreateSnapshot envHappy "snap-1" ⟨⟨some ⟨""⟩⟩⟩ [] []).1 =
      GoResult.ret ("csi.example.com", "snap-xyz", 7000000005, 1024, true) none := by
  decide

/-- Claim C1 (amended): for every call whose volume reference lacks a CSI
volume source altogether, `CreateSnapshot` fails with the precondition error
and issues zero remote calls. -/
theorem createSnapshot_nilCSISource_precondition (env : RemoteEnv)
    (snapshotName : String) (volume : PersistentVolume)
    (parameters snapshotterCredentials : List (String × String))
    (h : volume.spec.csi = none) :
    CreateSnapshot env snapshotName volume parameters snapshotterCredentials =
      (GoResult.ret ("", "", 0, 0, false) (some Err.csiSourceNotDefined), []) := by
  unfold CreateSnapshot
  rw [h]

/-- Witness for the amended C1 at a concrete volume without a CSI source. -/
theorem createSnapshot_nilCSISource_precondition_witness :
    CreateSnapshot envHappy "snap-1" ⟨⟨none⟩⟩ [] [] =
      (GoResult.ret ("", "", 0, 0, false) (some Err.csiSourceNotDefined), []) :=
  createSnapshot_nilCSISource_precondition envHappy "snap-1" ⟨⟨none⟩⟩ [] [] rfl

/-- Counterexample to C2 as stated: a create response whose snapshot id is
empty is returned as a fully successful result (nil error), not rejected —
the code never validates the snapshot id. -/
theorem createSnapshot_emptySnapshotId_counterexample :
    (CreateSnapshot envEmptyId "snap-1" ⟨⟨some ⟨"vol-abc"⟩⟩⟩ [] []).1 =
      GoResult.ret ("csi.example.com", "", 0, 0, false) none := by
  decide

/-- Claim C2 (amended): the checks the code actually performs — an empty
driver name is rejected by `GetDriverName` (and therefore aborts
`CreateSnapshot`), and a zero-length result set is rejected by
`GetSnapshotStatus`; an empty snapshot id in a create response is not
validated. -/
theorem responses_missing_fields_rejected :
    (∀ (env : RemoteEnv) (rsp : GetPluginInfoResponse),
      env.getPluginInfo = Except.ok rsp → rsp.name = "" →
      GetDriverName env = (("", some Err.nameEmpty), [RemoteCall.getPluginInfo])) ∧
    (∀ (env : RemoteEnv) (snapshotName : String) (volume : PersistentVolume)
      (parameters snapshotterCredentials : List (String × String))
      (csi : CSIPersistentVolumeSource) (rsp : GetPluginInfoResponse),
      volume.spec.csi = some csi →
      env.getPluginInfo = Except.ok rsp → rsp.name = "" →
      (CreateSnapshot env snapshotName volume parameters snapshotterCredentials).1 =
        GoResult.ret ("", "", 0, 0, false) (some Err.nameEmpty)) ∧
    (∀ (env : RemoteEnv) (snapshotID : String) (rsp : ListSnapshotsResponse),
      env.listSnapshotsRPC = Except.ok rsp → rsp.entries = [] →
      (GetSnapshotStatus env snapshotID).1 =
        GoResult.ret (false, 0, 0) (some (Err.snapshotNotFound snapshotID))) := by
  refine ⟨?_, ?_, ?_⟩
  · intro env rsp hpi hname
    unfold GetDriverName
    rw [hpi]
    dsimp only
    rw [if_pos hname]
  · intro env snapshotName volume parameters snapshotterCredentials csi rsp hcsi hpi hname
    have hg : GetDriverName env = (("", some Err.nameEmpty), [RemoteCall.getPluginInfo]) := by
      unfold GetDriverName
      rw [hpi]
      dsimp only
      rw [if_pos hname]
    unfold CreateSnapshot
    rw [hcsi]
    dsimp only
    rw [hg]
  · intro env snapshotID rsp h he
    unfold GetSnapshotStatus
    rw [h]
    dsimp only
    rw [he]

/-- Witness for the amended C2: a driver answering with an empty name, and a
status lookup answering with zero entries. -/
theorem responses_missing_fields_rejected_witness :
    GetDriverName { envHappy with getPluginInfo := Except.ok ⟨""⟩ } =
      (("", some Err.nameEmpty), [RemoteCall.getPluginInfo]) ∧
    (CreateSnapshot { envHappy with getPluginInfo := Except.ok ⟨""⟩ } "snap-1"
        ⟨⟨some ⟨"vol-abc"⟩⟩⟩ [] []).1 =
      GoResult.ret ("", "", 0, 0, false) (some Err.nameEmpty) ∧
    (GetSnapshotStatus envNoEntries "nonexistent").1 =
      GoResult.ret (false, 0, 0) (some (Err.snapshotNotFound "nonexistent")) :=
  ⟨responses_missing_fields_rejected.1 _ ⟨""⟩ rfl rfl,
    responses_missing_fields_rejected.2.1 _ "snap-1" ⟨⟨some ⟨"vol-abc"⟩⟩⟩ [] []
      ⟨"vol-abc"⟩ ⟨""⟩ rfl rfl rfl,
    responses_missing_fields_rejected.2.2 envNoEntries "nonexistent" ⟨[]⟩ rfl rfl⟩

/-- Claim C5: a successful `ListSnapshots` reply with zero entries makes
`GetSnapshotStatus` fail with the not-found error (never a zero-valued
success), and only the first entry of the reply determines the result. -/
theorem getSnapshotStatus_notFound_firstEntry :
    (∀ (env : RemoteEnv) (snapshotID : String) (rsp : ListSnapshotsResponse),
      env.listSnapshotsRPC = Except.ok rsp → rsp.entries = [] →
      GetSnapshotStatus env snapshotID =
        (GoResult.ret (false, 0, 0) (some (Err.snapshotNotFound snapshotID)),
          [RemoteCall.listSnapshotsCall snapshotID])) ∧
    (∀ (env env2 : RemoteEnv) (snapshotID : String)
      (e : Option ListSnapshotsEntry)
      (rest rest2 : List (Option ListSnapshotsEntry)),
      env.listSnapshotsRPC = Except.ok ⟨e :: rest⟩ →
      env2.listSnapshotsRPC = Except.ok ⟨e :: rest2⟩ →
      GetSnapshotStatus env snapshotID = GetSnapshotStatus env2 snapshotID) := by
  constructor
  · intro env snapshotID rsp h he
    unfold GetSnapshotStatus
    rw [h]
    dsimp only
    rw [he]
  · intro env env2 snapshotID e rest rest2 h1 h2
    unfold GetSnapshotStatus
    rw [h1, h2]

/-- Witness for C5: the zero-entry reply errors, and two replies sharing the
first entry but differing afterwards give the same status result. -/
theorem getSnapshotStatus_notFound_firstEntry_witness :
    GetSnapshotStatus envNoEntries "nonexistent" =
      (GoResult.ret (false, 0, 0) (some (Err.snapshotNotFound "nonexistent")),
        [RemoteCall.listSnapshotsCall "nonexistent"]) ∧
    GetSnapshotStatus envHappy "snap-xyz" = GetSnapshotStatus envTwoEntries "snap-xyz" :=
  ⟨getSnapshotStatus_notFound_firstEntry.1 envNoEntries "nonexistent" ⟨[]⟩ rfl rfl,
    getSnapshotStatus_notFound_firstEntry.2 envHappy envTwoEntries "snap-xyz"
      (some ⟨some sampleSnap⟩) [] [none] rfl rfl⟩

/-- The capability scan returns true exactly when some non-nil entry carries
a non-nil rpc sub-field with the wanted capability type. -/
theorem scanCapabilities_eq_true_iff (want : CapabilityType)
    (caps : List (Option Capability)) :
    scanCapabilities want caps = true ↔
      ∃ cap : Capability, some cap ∈ caps ∧ cap.rpc = some ⟨want⟩ := by
  induction caps with
  | nil => simp [scanCapabilities]
  | cons c rest ih =>
    cases c with
    | none =>
      simp only [scanCapabilities, ih, List.mem_cons]
      constructor
      · rintro ⟨cap, hmem, hrpc⟩
        exact ⟨cap, Or.inr hmem, hrpc⟩
      · rintro ⟨cap, hmem, hrpc⟩
        rcases hmem with hmem | hmem
        · exact absurd hmem (Option.some_ne_none cap)
        · exact ⟨cap, hmem, hrpc⟩
    | some cap =>
      cases hr : cap.rpc with
      | none =>
        simp only [scanCapabilities, hr, ih, List.mem_cons]
        constructor
        · rintro ⟨cc, hmem, hrpc⟩
          exact ⟨cc, Or.inr hmem, hrpc⟩
        · rintro ⟨cc, hmem, hrpc⟩
          rcases hmem with hmem | hmem
          · rw [Option.some_inj] at hmem
            rw [← hmem] at hr
            rw [hr] at hrpc
            cases hrpc
          · exact ⟨cc, hmem, hrpc⟩
      | some rpc =>
        by_cases ht : rpc.type = want
        · simp only [scanCapabilities, hr, if_pos ht, List.mem_cons, true_iff]
          refine ⟨cap, Or.inl rfl, ?_⟩
          rw [hr]
          cases rpc with
          | mk t => cases ht; rfl
        · simp only [scanCapabilities, hr, if_neg ht, ih, List.mem_cons]
          constructor
          · rintro ⟨cc, hmem, hrpc⟩
            exact ⟨cc, Or.inr hmem, hrpc⟩
          · rintro ⟨cc, hmem, hrpc⟩
            rcases hmem with hmem | hmem
            · rw [Option.some_inj] at hmem
              rw [hmem, hr, Option.some_inj] at hrpc
              exact absurd (congrArg CapabilityRpc.type hrpc) ht
            · exact ⟨cc, hmem, hrpc⟩

/-- Claim C4: when the capability query itself succeeds, each Supports
function answers true exactly when a matching entry exists, with a nil
error; nil entries and entries without the rpc sub-field are skipped, and an
unsupported capability yields false without an error. -/
theorem supports_iff_capability_found (env : RemoteEnv)
    (rsp : ControllerGetCapabilitiesResponse)
    (h : env.controllerGetCapabilities = Except.ok rsp) :
    ((SupportsControllerCreateSnapshot env).1.1 = true ↔
      ∃ cap : Capability, some cap ∈ rsp.capabilities ∧
        cap.rpc = some ⟨CapabilityType.createDeleteSnapshot⟩) ∧
    (SupportsControllerCreateSnapshot env).1.2 = none ∧
    ((SupportsControllerListSnapshots env).1.1 = true ↔
      ∃ cap : Capability, some cap ∈ rsp.capabilities ∧
        cap.rpc = some ⟨CapabilityType.listSnapshots⟩) ∧
    (SupportsControllerListSnapshots env).1.2 = none := by
  unfold SupportsControllerCreateSnapshot SupportsControllerListSnapshots
  rw [h]
  exact ⟨scanCapabilities_eq_true_iff _ _, rfl,
    scanCapabilities_eq_true_iff _ _, rfl⟩

/-- Witness for C4: the sample driver advertises create/delete snapshot but
not list snapshots, so the one query answers true and the other false, both
without error. -/
theorem supports_iff_capability_found_witness :
    (SupportsControllerCreateSnapshot envHappy).1.1 = true ∧
    (SupportsControllerListSnapshots envHappy).1.1 = false ∧
    (SupportsControllerListSnapshots envHappy).1.2 = none :=
  ⟨(supports_iff_capability_found envHappy
        ⟨[some ⟨some ⟨CapabilityType.createDeleteSnapshot⟩⟩]⟩ rfl).1.mpr
      ⟨⟨some ⟨CapabilityType.createDeleteSnapshot⟩⟩, by simp, rfl⟩,
    by
      have hiff := (supports_iff_capability_found envHappy
        ⟨[some ⟨some ⟨CapabilityType.createDeleteSnapshot⟩⟩]⟩ rfl).2.2.1
      by_cases hb : (SupportsControllerListSnapshots envHappy).1.1 = true
      · rcases hiff.mp hb with ⟨cap, hmem, hrpc⟩
        simp only [List.mem_singleton, Option.some_inj] at hmem
        rw [hmem] at hrpc
        cases hrpc
      · exact Bool.not_eq_true _ ▸ hb,
    (supports_iff_capability_found envHappy
        ⟨[some ⟨some ⟨CapabilityType.createDeleteSnapshot⟩⟩]⟩ rfl).2.2.2⟩

/-- In the readiness loop, observations that are neither a context timeout
nor a transition to the ready state are skipped. -/
theorem waitLoop_skips (pre tail : List WaitEvent)
    (h : ∀ e ∈ pre, e ≠ WaitEvent.ctxDone ∧
      e ≠ WaitEvent.stateChanged ConnectivityState.ready) :
    waitLoop (pre ++ tail) = waitLoop tail := by
  induction pre with
  | nil => rfl
  | cons e rest ih =>
    have he := h e (by simp)
    cases e with
    | ctxDone => exact absurd rfl he.1
    | stateChanged s =>
      have hs : ¬s = ConnectivityState.ready := by
        intro hq
        exact he.2 (by rw [hq])
      rw [List.cons_append]
      simp only [waitLoop]
      rw [if_neg hs]
      exact ih fun x hx => h x (List.mem_cons_of_mem _ hx)

/-- Claim C6: after a successful dial, if the deadline elapses before any
ready transition the channel is returned not-ready with a nil error, and a
ready transition returns the channel at once (independently of any later
observations). -/
theorem connect_deadline_and_ready :
    (∀ (address : String) (pre rest : List WaitEvent),
      (∀ e ∈ pre, e ≠ WaitEvent.ctxDone ∧
        e ≠ WaitEvent.stateChanged ConnectivityState.ready) →
      connect address (Except.ok ()) (pre ++ WaitEvent.ctxDone :: rest) =
        some (ConnectOutcome.channelReturned false)) ∧
    (∀ (address : String) (pre rest : List WaitEvent),
      (∀ e ∈ pre, e ≠ WaitEvent.ctxDone ∧
        e ≠ WaitEvent.stateChanged ConnectivityState.ready) →
      connect address (Except.ok ())
          (pre ++ WaitEvent.stateChanged ConnectivityState.ready :: rest) =
        some (ConnectOutcome.channelReturned true)) := by
  constructor
  · intro address pre rest h
    unfold connect
    rw [waitLoop_skips pre _ h]
    rfl
  · intro address pre rest h
    unfold connect
    rw [waitLoop_skips pre _ h]
    simp [waitLoop]

/-- Witness for C6: one non-ready transition followed by the deadline, and
one non-ready transition followed by ready (with a later ignored
observation). -/
theorem connect_deadline_and_ready_witness :
    connect "/run/csi.sock" (Except.ok ())
        [WaitEvent.stateChanged ConnectivityState.connecting, WaitEvent.ctxDone] =
      some (ConnectOutcome.channelReturned false) ∧
    connect "/run/csi.sock" (Except.ok ())
        [WaitEvent.stateChanged ConnectivityState.connecting,
          WaitEvent.stateChanged ConnectivityState.ready,
          WaitEvent.stateChanged ConnectivityState.shutdown] =
      some (ConnectOutcome.channelReturned true) :=
  ⟨connect_deadline_and_ready.1 "/run/csi.sock"
      [WaitEvent.stateChanged ConnectivityState.connecting] [] (by decide),
    connect_deadline_and_ready.2 "/run/csi.sock"
      [WaitEvent.stateChanged ConnectivityState.connecting]
      [WaitEvent.stateChanged ConnectivityState.shutdown] (by decide)⟩

/-- Claim C7: within one `CreateSnapshot` call with a CSI source present,
the driver-name fetch strictly precedes the create request; on success
exactly those two remote calls are issued in that order, and a failing
driver-name fetch aborts before the create request is sent. -/
theorem createSnapshot_call_order (env : RemoteEnv) (snapshotName : String)
    (volume : PersistentVolume)
    (parameters snapshotterCredentials : List (String × String))
    (csi : CSIPersistentVolumeSource) (hcsi : volume.spec.csi = some csi) :
    (∀ v, (CreateSnapshot env snapshotName volume parameters
        snapshotterCredentials).1 = GoResult.ret v none →
      (CreateSnapshot env snapshotName volume parameters
          snapshotterCredentials).2 =
        [RemoteCall.getPluginInfo,
          RemoteCall.createSnapshotCall csi.volumeHandle snapshotName]) ∧
    ((GetDriverName env).1.2.isSome = true →
      (CreateSnapshot env snapshotName volume parameters
          snapshotterCredentials).2 = [RemoteCall.getPluginInfo]) := by
  obtain ⟨gpi, caps, cs, ls⟩ := env
  unfold CreateSnapshot GetDriverName
  rw [hcsi]
  dsimp only
  cases gpi with
  | error e =>
    exact ⟨fun v hv => by simp at hv, fun _ => rfl⟩
  | ok rsp =>
    dsimp only
    by_cases hname : rsp.name = ""
    · rw [if_pos hname]
      exact ⟨fun v hv => by simp at hv, fun _ => rfl⟩
    · rw [if_neg hname]
      dsimp only
      cases cs with
      | error e =>
        exact ⟨fun v hv => by simp at hv, fun hs => by simp at hs⟩
      | ok rsp2 =>
        obtain ⟨osnap⟩ := rsp2
        cases osnap with
        | none =>
          exact ⟨fun v hv => by simp at hv, fun hs => by simp at hs⟩
        | some snap =>
          dsimp only
          generalize timestampToUnixTime snap.creationTime = r
          obtain ⟨t, te⟩ := r
          cases te with
          | some e =>
            exact ⟨fun v hv => by simp at hv, fun hs => by simp at hs⟩
          | none =>
            exact ⟨fun v _ => rfl, fun hs => by simp at hs⟩

/-- Witness for C7: against the fully successful sample driver the call
issues exactly the two remote calls in order, and against the all-failing
driver only the plugin-info call is issued. -/
theorem createSnapshot_call_order_witness :
    (CreateSnapshot envHappy "snap-1" ⟨⟨some ⟨"vol-abc"⟩⟩⟩ [] []).2 =
      [RemoteCall.getPluginInfo,
        RemoteCall.createSnapshotCall "vol-abc" "snap-1"] ∧
    (CreateSnapshot envAllFail "snap-1" ⟨⟨some ⟨"vol-abc"⟩⟩⟩ [] []).2 =
      [RemoteCall.getPluginInfo] :=
  ⟨(createSnapshot_call_order envHappy "snap-1" ⟨⟨some ⟨"vol-abc"⟩⟩⟩ [] []
        ⟨"vol-abc"⟩ rfl).1
      ("csi.example.com", "snap-xyz", 7000000005, 1024, true) (by decide),
    (createSnapshot_call_order envAllFail "snap-1" ⟨⟨some ⟨"vol-abc"⟩⟩⟩ [] []
        ⟨"vol-abc"⟩ rfl).2 (by decide)⟩

/-- Claim C8: the unix-socket dialer is installed exactly for addresses
whose first character is the path separator `/`; every other address keeps
only the default (networked) dial options. -/
theorem connect_local_dialing (address : String) :
    (DialOption.withUnixDialer ∈ dialOptions address ↔
      address.data.head? = some (Char.ofNat 47)) ∧
    (hasPathMarker address = false →
      dialOptions address =
        [DialOption.withInsecure, DialOption.withBackoffMaxDelay,
          DialOption.withUnaryInterceptorLogGRPC]) := by
  constructor
  · unfold dialOptions hasPathMarker
    cases address.data with
    | nil => simp
    | cons c cs =>
      by_cases hc : c = Char.ofNat 47
      · rw [if_pos (by simp [hc])]
        simp [hc]
      · rw [if_neg (by simp [hc])]
        simp [hc]
  · intro h
    unfold dialOptions
    rw [h]
    rfl

/-- Witness for C8 at concrete addresses: a socket path gets the unix
dialer, a network address keeps the default options. -/
theorem connect_local_dialing_witness :
    DialOption.withUnixDialer ∈ dialOptions "/var/lib/kubelet/csi.sock" ∧
    dialOptions "dns:///csi.example.com:3000" =
      [DialOption.withInsecure, DialOption.withBackoffMaxDelay,
        DialOption.withUnaryInterceptorLogGRPC] :=
  ⟨(connect_local_dialing "/var/lib/kubelet/csi.sock").1.mpr (by decide),
    (connect_local_dialing "dns:///csi.example.com:3000").2 (by decide)⟩

/-- Claim C9: the diagnostic interceptor returns exactly the wrapped
reply and error — its only addition is the log, so it is purely
observational. -/
theorem logGRPC_observational {Req Reply : Type} (stripReq : Req → String)
    (stripReply : Reply → String) (method : String)
    (invoker : Req → Reply × Option String) (req : Req) :
    (logGRPC stripReq stripReply method invoker req).1 = invoker req ∧
    (logGRPC stripReq stripReply method invoker req).2 =
      [LogEntry.callLine method, LogEntry.requestLine (stripReq req),
        LogEntry.responseLine (stripReply (invoker req).1),
        LogEntry.errorLine (invoker req).2] :=
  ⟨rfl, rfl⟩

/-- Claim C10: whenever a façade operation returns a non-nil error, every
other returned value is the zero value of its type — a capability query
never pairs true with an error, and the internal -1 sentinel of
`timestampToUnixTime` is replaced by 0 in the error returns of
`CreateSnapshot` and `GetSnapshotStatus`. -/
theorem facade_zero_values_on_error :
    (∀ env : RemoteEnv, (GetDriverName env).1.2.isSome = true →
      (GetDriverName env).1.1 = "") ∧
    (∀ env : RemoteEnv,
      (SupportsControllerCreateSnapshot env).1.2.isSome = true →
      (SupportsControllerCreateSnapshot env).1.1 = false) ∧
    (∀ env : RemoteEnv,
      (SupportsControllerListSnapshots env).1.2.isSome = true →
      (SupportsControllerListSnapshots env).1.1 = false) ∧
    (∀ (env : RemoteEnv) (snapshotName : String) (volume : PersistentVolume)
      (parameters snapshotterCredentials : List (String × String))
      (v : String × String × Int × Int × Bool) (e : Err),
      (CreateSnapshot env snapshotName volume parameters
          snapshotterCredentials).1 = GoResult.ret v (some e) →
      v = ("", "", 0, 0, false)) ∧
    (∀ (env : RemoteEnv) (snapshotID : String) (v : Bool × Int × Int) (e : Err),
      (GetSnapshotStatus env snapshotID).1 = GoResult.ret v (some e) →
      v = (false, 0, 0)) := by
  refine ⟨?_, ?_, ?_, ?_, ?_⟩
  · intro env
    obtain ⟨gpi, caps, cs, ls⟩ := env
    unfold GetDriverName
    dsimp only
    cases gpi with
    | error e => intro _; rfl
    | ok rsp =>
      dsimp only
      by_cases hname : rsp.name = ""
      · rw [if_pos hname]
        intro _
        rfl
      · rw [if_neg hname]
        intro h
        simp at h
  · intro env
    obtain ⟨gpi, caps, cs, ls⟩ := env
    unfold SupportsControllerCreateSnapshot
    dsimp only
    cases caps with
    | error e => intro _; rfl
    | ok rsp => intro h; simp at h
  · intro env
    obtain ⟨gpi, caps, cs, ls⟩ := env
    unfold SupportsControllerListSnapshots
    dsimp only
    cases caps with
    | error e => intro _; rfl
    | ok rsp => intro h; simp at h
  · intro env snapshotName volume parameters snapshotterCredentials v e
    obtain ⟨gpi, caps, cs, ls⟩ := env
    obtain ⟨⟨ocsi⟩⟩ := volume
    unfold CreateSnapshot GetDriverName
    dsimp only
    cases ocsi with
    | none =>
      intro hv
      injection hv with h1 h2
      exact h1.symm
    | some csi =>
      dsimp only
      cases gpi with
      | error re =>
        intro hv
        injection hv with h1 h2
        exact h1.symm
      | ok rsp =>
        dsimp only
        by_cases hname : rsp.name = ""
        · rw [if_pos hname]
          intro hv
          injection hv with h1 h2
          exact h1.symm
        · rw [if_neg hname]
          dsimp only
          cases cs with
          | error re =>
            intro hv
            injection hv with h1 h2
            exact h1.symm
          | ok rsp2 =>
            obtain ⟨osnap⟩ := rsp2
            cases osnap with
            | none => intro hv; cases hv
            | some snap =>
              dsimp only
              generalize timestampToUnixTime snap.creationTime = r
              obtain ⟨t, te⟩ := r
              cases te with
              | some te2 =>
                intro hv
                injection hv with h1 h2
                exact h1.symm
              | none =>
                intro hv
                injection hv with h1 h2
                cases h2
  · intro env snapshotID v e
    obtain ⟨gpi, caps, cs, ls⟩ := env
    unfold GetSnapshotStatus
    dsimp only
    cases ls with
    | error re =>
      intro hv
      injection hv with h1 h2
      exact h1.symm
    | ok rsp =>
      obtain ⟨entries⟩ := rsp
      cases entries with
      | nil =>
        intro hv
        injection hv with h1 h2
        exact h1.symm
      | cons e0 tail =>
        cases e0 with
        | none => intro hv; cases hv
        | some entry =>
          obtain ⟨osnap⟩ := entry
          cases osnap with
          | none => intro hv; cases hv
          | some snap =>
            dsimp only
            generalize timestampToUnixTime snap.creationTime = r
            obtain ⟨t, te⟩ := r
            cases te with
            | some te2 =>
              intro hv
              injection hv with h1 h2
              exact h1.symm
            | none =>
              intro hv
              injection hv with h1 h2
              cases h2

/-- Witness for C10 against the all-failing driver: every operation returns
zero values alongside its error. -/
theorem facade_zero_values_on_error_witness :
    (GetDriverName envAllFail).1.1 = "" ∧
    (SupportsControllerCreateSnapshot envAllFail).1.1 = false ∧
    (SupportsControllerListSnapshots envAllFail).1.1 = false ∧
    (("", "", 0, 0, false) : String × String × Int × Int × Bool) =
      ("", "", 0, 0, false) ∧
    ((false, 0, 0) : Bool × Int × Int) = (false, 0, 0) :=
  ⟨facade_zero_values_on_error.1 envAllFail (by decide),
    facade_zero_values_on_error.2.1 envAllFail (by decide),
    facade_zero_values_on_error.2.2.1 envAllFail (by decide),
    facade_zero_values_on_error.2.2.2.1 envAllFail "snap-1" ⟨⟨some ⟨"vol-abc"⟩⟩⟩
      [] [] ("", "", 0, 0, false) (Err.remote "transport is down") (by decide),
    facade_zero_values_on_error.2.2.2.2 envAllFail "snap-xyz" (false, 0, 0)
      (Err.remote "transport is down") (by decide)⟩

end CsiConnection
